import Mathlib

/-!
Shallow embedding of the `zenvia_v2_api` Python client
(`src/zenvia_v2_api/zenvia.py` and `src/zenvia_v2_api/exceptions.py`).

Modelling conventions:
* JSON values are modelled by the inductive `Json`; Python dictionaries that
  end up in request bodies are `Json.obj` field lists, query-parameter
  dictionaries are association lists `List (String × String)`.
* The network is modelled by a transport oracle
  `transport : HttpRequest → HttpOutcome` that is passed to every request
  helper.  Each client method returns a pair
  `(Except PyError Json × List HttpRequest)`: the first component is the
  Python return value or the raised exception, the second component is the
  trace of HTTP requests actually handed to the transport (so an empty trace
  means "no network call was performed").
* Python exceptions are modelled by `PyError`:
  `ZenviaAPIRequestException`, `ZenviaAPIFunctionValidation` (from
  `exceptions.py`) and the builtin `ValueError` / `TypeError` raised by
  `int(...)` coercion.
* Behaviour of the third-party `requests` and `validators` libraries and of
  `simplejson.dumps` is modelled in the definitions that carry a
  `Modelled from ...` doc comment; everything else is translated directly
  from the repository source.
-/

namespace ZenviaV2

/-- JSON values, as produced by `response.json()` and consumed by
`requests.post(..., json=data)`.  Objects keep their fields as an ordered
association list, mirroring insertion order of the Python dictionaries. -/
inductive Json where
  | null : Json
  | bool (b : Bool) : Json
  | num (n : Int) : Json
  | str (s : String) : Json
  | arr (elems : List Json) : Json
  | obj (fields : List (String × Json)) : Json
deriving Repr

/-- Look a key up in an object field list (first match wins, as in a Python
dict where keys are unique). -/
def lookupFs : List (String × Json) → String → Option Json
  | [], _ => Option.none
  | (k, v) :: fs, key => if k == key then some v else lookupFs fs key

/-- Look a key up in a JSON value: `some v` when it is an object that has the
key, `Option.none` otherwise. -/
def Json.getKey : Json → String → Option Json
  | .obj fs, key => lookupFs fs key
  | _, _ => Option.none

/-- A Python `None`-or-string value placed into a JSON payload: Python `None`
serialises to JSON `null`. -/
def optStr : Option String → Json
  | some s => Json.str s
  | Option.none => Json.null

/-- `ind` spaces, the indentation prefix used by `json.dumps(..., indent=2)`. -/
def pad (n : Nat) : String :=
  String.mk (List.replicate n ' ')

/-- Modelled from `simplejson`: escaping of a single character inside a JSON
string literal, restricted to the escapes relevant here (quote, backslash and
common control characters); other characters are emitted verbatim. -/
def escChar (c : Char) : String :=
  if c = '"' then "\\\"" else if c = '\\' then "\\\\" else if c = '\n' then "\\n"
  else if c = '\t' then "\\t" else if c = '\r' then "\\r" else String.singleton c

/-- A JSON string literal: the escaped characters wrapped in double quotes. -/
def quoteStr (s : String) : String :=
  "\"" ++ String.join (s.toList.map escChar) ++ "\""

mutual

/-- Modelled from `simplejson.dumps(obj, indent=2)`: pretty printing of a JSON
value at current indentation `ind`, children indented two further spaces,
separators `",\n"` and `": "` as Python uses when `indent` is given. -/
def dumpsVal (ind : Nat) : Json → String
  | .null => "null"
  | .bool b => if b then "true" else "false"
  | .num n => toString n
  | .str s => quoteStr s
  | .arr [] => "[]"
  | .arr (x :: xs) => "[\n" ++ dumpsArrItems (ind + 2) (x :: xs) ++ "\n" ++ pad ind ++ "]"
  | .obj [] => "\x7b\x7d"
  | .obj (f :: fs) => "\x7b\n" ++ dumpsObjItems (ind + 2) (f :: fs) ++ "\n" ++ pad ind ++ "\x7d"

/-- Array elements of `dumpsVal`, one per line, comma separated. -/
def dumpsArrItems (ind : Nat) : List Json → String
  | [] => ""
  | [x] => pad ind ++ dumpsVal ind x
  | x :: y :: xs => pad ind ++ dumpsVal ind x ++ ",\n" ++ dumpsArrItems ind (y :: xs)

/-- Object fields of `dumpsVal`, one per line, comma separated. -/
def dumpsObjItems (ind : Nat) : List (String × Json) → String
  | [] => ""
  | [(k, v)] => pad ind ++ quoteStr k ++ ": " ++ dumpsVal ind v
  | (k, v) :: g :: fs => pad ind ++ quoteStr k ++ ": " ++ dumpsVal ind v ++ ",\n" ++ dumpsObjItems ind (g :: fs)

end

/-- The Python exceptions observable from the client
(`exceptions.py` plus the builtins raised by `int(...)`):
`requestException` is `ZenviaAPIRequestException`, `functionValidation` is
`ZenviaAPIFunctionValidation`; both are subclasses of `ZenviaAPIException`.
`valueError` / `typeError` are Python `ValueError` / `TypeError`. -/
inductive PyError where
  | requestException (msg : String)
  | functionValidation (msg : String)
  | valueError (msg : String)
  | typeError (msg : String)
deriving DecidableEq, Repr

/-- A Python value passed as the `id` argument of `webhook_retrieve` /
`webhook_delete` (annotated `int` but accepted dynamically): an integer, a
string, or `None`. -/
inductive PyVal where
  | int (n : Int) : PyVal
  | str (s : String) : PyVal
  | noneV : PyVal
deriving DecidableEq, Repr

/-- A non-empty all-digit character list read as a decimal number. -/
def parseNatDigits (cs : List Char) : Option Nat :=
  if cs = [] then Option.none
  else if cs.all (fun c => c.isDigit) then
    some (cs.foldl (fun acc c => acc * 10 + (c.toNat - 48)) 0)
  else Option.none

/-- Leading and trailing whitespace removed from a character list. -/
def stripWs (cs : List Char) : List Char :=
  ((cs.dropWhile (fun c => c.isWhitespace)).reverse.dropWhile
    (fun c => c.isWhitespace)).reverse

/-- Modelled from Python `int(s)` on a string, restricted to plain decimal
literals: surrounding whitespace is stripped, an optional single sign is
allowed, then a non-empty run of decimal digits. -/
def parsePyInt (s : String) : Option Int :=
  match stripWs s.toList with
  | '-' :: rest => (parseNatDigits rest).map (fun n => -(n : Int))
  | '+' :: rest => (parseNatDigits rest).map (fun n => (n : Int))
  | cs => (parseNatDigits cs).map (fun n => (n : Int))

/-- Modelled from Python `int(x)`: integers pass through, strings are parsed
as decimal literals (`ValueError` on failure), `None` raises `TypeError`. -/
def pyInt : PyVal → Except PyError Int
  | .int n => .ok n
  | .str s =>
    match parsePyInt s with
    | some n => .ok n
    | Option.none => .error (.valueError ("invalid literal for int() with base 10: " ++ s))
  | .noneV => .error (.typeError "int() argument must be a string, a bytes-like object or a real number, not NoneType")

/-- An HTTP request as handed to the `requests` library: full URL, header
list, query parameters, and for POST the JSON body. -/
inductive HttpRequest where
  | get (url : String) (headers : List (String × String)) (params : List (String × String)) : HttpRequest
  | post (url : String) (headers : List (String × String)) (params : List (String × String)) (data : Json) : HttpRequest
  | delete (url : String) (headers : List (String × String)) (params : List (String × String)) : HttpRequest
deriving Repr

/-- The header list of a request, whichever verb it uses. -/
def HttpRequest.headersOf : HttpRequest → List (String × String)
  | .get _ h _ => h
  | .post _ h _ _ => h
  | .delete _ h _ => h

/-- What the transport does with one request: either the `requests` call
itself raises an exception carrying a message (DNS failure, connection
refused, timeout, ...), or an HTTP response with a status code and a decoded
JSON body comes back. -/
inductive HttpOutcome where
  | exn (msg : String) : HttpOutcome
  | resp (status : Nat) (body : Json) : HttpOutcome

/-- Modelled from the `requests` library: `Response.raise_for_status` raises
`HTTPError` exactly for client-error (4xx) and server-error (5xx) status
codes; 2xx and 3xx responses do not raise.  `Response.ok` is the negation of
this predicate. -/
def errorStatus (status : Nat) : Bool :=
  decide (400 ≤ status ∧ status < 600)

/-- Modelled from the `requests` library: the message of the `HTTPError`
raised by `Response.raise_for_status` (status code, error class and URL). -/
def raiseForStatusMsg (status : Nat) (url : String) : String :=
  if status < 500 then
    toString status ++ " Client Error: for url: " ++ url
  else
    toString status ++ " Server Error: for url: " ++ url

/-- Modelled from `urllib.parse.urljoin` for the call sites of this client:
the base ends with a slash and every endpoint is a relative path, where
`urljoin` reduces to string concatenation. -/
def urljoin (base endpoint : String) : String :=
  base ++ endpoint

/-- Modelled from the spec: the third-party `validators.url` check, which the
spec reads as "`webhookUrl` must parse as a well-formed URL (scheme + host
present)".  We model it as an `http` or `https` scheme followed by a
non-empty remainder. -/
def validators_url (u : String) : Bool :=
  match u.toList with
  | 'h' :: 't' :: 't' :: 'p' :: ':' :: '/' :: '/' :: rest => !rest.isEmpty
  | 'h' :: 't' :: 't' :: 'p' :: 's' :: ':' :: '/' :: '/' :: rest => !rest.isEmpty
  | _ => false

/-- The client class `ZenviaAPI`: its only attribute is the token stored by
`__init__` (Python field `_token`). -/
structure ZenviaAPI where
  token : String
deriving DecidableEq, Repr

/-- `ZenviaAPI.API_HOST`. -/
def API_HOST : String := "https://api.zenvia.com/v2/"

/-- `get_auth_header`: the dictionary with the `X-API-Token` key. -/
def get_auth_header (api : ZenviaAPI) : List (String × String) :=
  [("X-API-Token", api.token)]

/-- A transport oracle standing for the network reachable through the
`requests` library. -/
def Transport : Type := HttpRequest → HttpOutcome

/-- `request_get`: build the URL and auth header, call `requests.get` and
`raise_for_status` inside `try`, wrap any exception in
`ZenviaAPIRequestException(str(e))`, otherwise return `response.json()`. -/
def request_get (api : ZenviaAPI) (transport : Transport)
    (endpoint : String) (params : List (String × String)) :
    Except PyError Json × List HttpRequest :=
  let url := urljoin API_HOST endpoint
  let req := HttpRequest.get url (get_auth_header api) params
  match transport req with
  | .exn m => (.error (.requestException m), [req])
  | .resp s body =>
    if errorStatus s then
      (.error (.requestException (raiseForStatusMsg s url)), [req])
    else
      (.ok body, [req])

/-- `request_delete`: same contract as `request_get`, with `requests.delete`. -/
def request_delete (api : ZenviaAPI) (transport : Transport)
    (endpoint : String) (params : List (String × String)) :
    Except PyError Json × List HttpRequest :=
  let url := urljoin API_HOST endpoint
  let req := HttpRequest.delete url (get_auth_header api) params
  match transport req with
  | .exn m => (.error (.requestException m), [req])
  | .resp s body =>
    if errorStatus s then
      (.error (.requestException (raiseForStatusMsg s url)), [req])
    else
      (.ok body, [req])

/-- `request_post`: call `requests.post` inside `try` (no
`raise_for_status`), wrap a transport exception in
`ZenviaAPIRequestException`; afterwards, if `not response.ok`, raise
`ZenviaAPIRequestException` with the formatted message (note the source
spells "reponse") embedding the status code and
`json.dumps(response.json(), indent=2)`; otherwise return `response.json()`. -/
def request_post (api : ZenviaAPI) (transport : Transport)
    (endpoint : String) (params : List (String × String)) (data : Json) :
    Except PyError Json × List HttpRequest :=
  let url := urljoin API_HOST endpoint
  let req := HttpRequest.post url (get_auth_header api) params data
  match transport req with
  | .exn m => (.error (.requestException m), [req])
  | .resp s body =>
    if errorStatus s then
      (.error (.requestException
        ("Request reponse with error status[" ++ toString s ++ "]:\n"
          ++ dumpsVal 0 body)), [req])
    else
      (.ok body, [req])

/-- `webhook_list`: GET `subscriptions`. -/
def webhook_list (api : ZenviaAPI) (transport : Transport) :
    Except PyError Json × List HttpRequest :=
  request_get api transport ("subscriptions") []

/-- `webhook_retrieve`: coerce the id with `int(...)` while formatting the
endpoint, then GET `subscriptions/{id}`; a failing coercion propagates before
any request is made. -/
def webhook_retrieve (api : ZenviaAPI) (transport : Transport) (id : PyVal) :
    Except PyError Json × List HttpRequest :=
  match pyInt id with
  | .error e => (.error e, [])
  | .ok n => request_get api transport ("subscriptions/" ++ toString n) []

/-- `webhook_delete`: coerce the id with `int(...)` while formatting the
endpoint, then DELETE `subscriptions/{id}`. -/
def webhook_delete (api : ZenviaAPI) (transport : Transport) (id : PyVal) :
    Except PyError Json × List HttpRequest :=
  match pyInt id with
  | .error e => (.error e, [])
  | .ok n => request_delete api transport ("subscriptions/" ++ toString n) []

/-- The payload built by `webhook_create` for `event_type == "MESSAGE"`:
criteria carries both the channel and the direction. -/
def messagePayload (webhook_url : String) (webhook_headers : Json)
    (criteria_channel : String) (criteria_direction : Option String)
    (status : Option String) : Json :=
  Json.obj
    [("eventType", Json.str ("MESSAGE")),
     ("webhook", Json.obj [("url", Json.str webhook_url), ("headers", webhook_headers)]),
     ("status", optStr status),
     ("version", Json.str ("v2")),
     ("criteria", Json.obj
       [("channel", Json.str criteria_channel),
        ("direction", optStr criteria_direction)])]

/-- The payload built by `webhook_create` for
`event_type == "MESSAGE_STATUS"`: criteria carries only the channel. -/
def messageStatusPayload (webhook_url : String) (webhook_headers : Json)
    (criteria_channel : String) (status : Option String) : Json :=
  Json.obj
    [("eventType", Json.str ("MESSAGE_STATUS")),
     ("webhook", Json.obj [("url", Json.str webhook_url), ("headers", webhook_headers)]),
     ("status", optStr status),
     ("version", Json.str ("v2")),
     ("criteria", Json.obj [("channel", Json.str criteria_channel)])]

/-- The `data` construction of `webhook_create` (the `if event_type ==
"MESSAGE" / elif == "MESSAGE_STATUS" / else raise` chain after validation):
one of the two payloads, or the fallback
`ZenviaAPIFunctionValidation("event_type not avaiable: ...")`. -/
def build_webhook_payload (event_type webhook_url : String)
    (webhook_headers : Json) (criteria_channel : String)
    (criteria_direction : Option String) (status : Option String) :
    Except PyError Json :=
  if event_type == "MESSAGE" then
    .ok (messagePayload webhook_url webhook_headers criteria_channel
      criteria_direction status)
  else if event_type == "MESSAGE_STATUS" then
    .ok (messageStatusPayload webhook_url webhook_headers criteria_channel status)
  else
    .error (.functionValidation ("event_type not avaiable: " ++ event_type))

/-- The condition of the second check of `webhook_create`
(`if status is not None: if status not in ["ACTIVE", "DEGRADED",
"INACTIVE"]`): `true` when the check passes, i.e. the status is `None` or a
member of the enumeration. -/
def statusCheckPasses : Option String → Bool
  | some st => st == "ACTIVE" || st == "DEGRADED" || st == "INACTIVE"
  | Option.none => true

/-- The condition of the fourth check of `webhook_create`
(`if criteria_direction not in ["IN", "OUT"]`, with Python `None` not a
member of the list): `true` when the value is a member. -/
def directionValueOk : Option String → Bool
  | some d => d == "IN" || d == "OUT"
  | Option.none => false

/-- Both direction checks of `webhook_create` pass: vacuous unless
`event_type == "MESSAGE"`, in which case the direction must be present and a
member of the enumeration. -/
def directionCheckPasses (event_type : String) (dir : Option String) : Bool :=
  if event_type == "MESSAGE" then directionValueOk dir else true

/-- `webhook_create`: the four fail-fast parameter validations in source
order, then the payload construction, then POST `subscriptions`.
`criteria_direction` defaults to Python `None`, `status` defaults to
`"ACTIVE"` (passing `None` explicitly skips the status check). -/
def webhook_create (api : ZenviaAPI) (transport : Transport)
    (event_type webhook_url : String) (webhook_headers : Json)
    (criteria_channel : String) (criteria_direction : Option String)
    (status : Option String) :
    Except PyError Json × List HttpRequest :=
  if !(event_type == "MESSAGE" || event_type == "MESSAGE_STATUS") then
    (.error (.functionValidation "event_type not in [MESSAGE, MESSAGE_STATUS]"), [])
  else if !(statusCheckPasses status) then
    (.error (.functionValidation "status not in [ACTIVE, DEGRADED, INACTIVE]"), [])
  else if event_type == "MESSAGE" && (criteria_direction matches Option.none) then
    (.error (.functionValidation "event_type == MESSAGE and criteria_direction is None"), [])
  else if event_type == "MESSAGE" && !(directionValueOk criteria_direction) then
    (.error (.functionValidation "criteria_direction not in [IN, OUT]"), [])
  else if !(validators_url webhook_url) then
    (.error (.functionValidation "webhook_url is not a well formated url"), [])
  else
    match build_webhook_payload event_type webhook_url webhook_headers
        criteria_channel criteria_direction status with
    | .error e => (.error e, [])
    | .ok data => request_post api transport ("subscriptions") [] data

/-- `whatsapp_send_text`: POST `channels/whatsapp/messages` with a single
free-text content item; no argument is validated locally. -/
def whatsapp_send_text (api : ZenviaAPI) (transport : Transport)
    (msg_from msg_to text : String) :
    Except PyError Json × List HttpRequest :=
  let data := Json.obj
    [("from", Json.str msg_from),
     ("to", Json.str msg_to),
     ("contents", Json.arr
       [Json.obj [("type", Json.str ("text")), ("text", Json.str text)]])]
  request_post api transport ("channels/whatsapp/messages") [] data

/-- `whatsapp_send_templated`: POST `channels/whatsapp/messages` with a
single templated content item; no argument is validated locally. -/
def whatsapp_send_templated (api : ZenviaAPI) (transport : Transport)
    (msg_from msg_to template_id : String) (fields : Json) :
    Except PyError Json × List HttpRequest :=
  let data := Json.obj
    [("from", Json.str msg_from),
     ("to", Json.str msg_to),
     ("contents", Json.arr
       [Json.obj [("type", Json.str ("template")),
                  ("templateId", Json.str template_id),
                  ("fields", fields)]])]
  request_post api transport ("channels/whatsapp/messages") [] data

/-- The query-parameter dictionary assembled by `template_list`: `channel`
and `status` are kept only when they belong to their fixed enumerations
(invalid values are silently dropped), `senderId` is kept whenever present. -/
def template_list_query (channel sender_id status : Option String) :
    List (String × String) :=
  let q1 : List (String × String) :=
    match channel with
    | some c =>
      if c == "WHATSAPP" || c == "SMS" || c == "RCS" || c == "EMAIL" then
        [("channel", c)]
      else []
    | Option.none => []
  let q2 :=
    match status with
    | some st =>
      if st == "WAITING_REVIEW" || st == "REJECTED" || st == "WAITING_APPROVAL"
          || st == "APPROVED" || st == "PAUSED" || st == "DISABLED" then
        q1 ++ [("status", st)]
      else q1
    | Option.none => q1
  match sender_id with
  | some sid => q2 ++ [("senderId", sid)]
  | Option.none => q2

/-- `template_list`: GET `templates` with the filtered query parameters. -/
def template_list (api : ZenviaAPI) (transport : Transport)
    (channel sender_id status : Option String) :
    Except PyError Json × List HttpRequest :=
  request_get api transport ("templates") (template_list_query channel sender_id status)

/-- `template_retrieve`: GET `templates/{id}` (the id is interpolated as the
string it is, no coercion). -/
def template_retrieve (api : ZenviaAPI) (transport : Transport) (id : String) :
    Except PyError Json × List HttpRequest :=
  request_get api transport ("templates/" ++ id) []

/-- Look a key up in a query-parameter association list. -/
def lookupParam : List (String × String) → String → Option String
  | [], _ => Option.none
  | (k, v) :: ps, key => if k == key then some v else lookupParam ps key

/-- A GET always hands exactly one request, built from the endpoint, the auth
header and the params, to the transport. -/
theorem request_get_trace (api : ZenviaAPI) (tr : Transport)
    (endpoint : String) (params : List (String × String)) :
    (request_get api tr endpoint params).2
      = [HttpRequest.get (urljoin API_HOST endpoint) (get_auth_header api) params] := by
  simp only [request_get]
  cases tr (HttpRequest.get (urljoin API_HOST endpoint) (get_auth_header api) params) with
  | exn m => rfl
  | resp s body => by_cases h : errorStatus s <;> simp [h]

/-- A DELETE always hands exactly one request to the transport. -/
theorem request_delete_trace (api : ZenviaAPI) (tr : Transport)
    (endpoint : String) (params : List (String × String)) :
    (request_delete api tr endpoint params).2
      = [HttpRequest.delete (urljoin API_HOST endpoint) (get_auth_header api) params] := by
  simp only [request_delete]
  cases tr (HttpRequest.delete (urljoin API_HOST endpoint) (get_auth_header api) params) with
  | exn m => rfl
  | resp s body => by_cases h : errorStatus s <;> simp [h]

/-- A POST always hands exactly one request, carrying the JSON body, to the
transport. -/
theorem request_post_trace (api : ZenviaAPI) (tr : Transport)
    (endpoint : String) (params : List (String × String)) (data : Json) :
    (request_post api tr endpoint params data).2
      = [HttpRequest.post (urljoin API_HOST endpoint) (get_auth_header api) params data] := by
  simp only [request_post]
  cases tr (HttpRequest.post (urljoin API_HOST endpoint) (get_auth_header api) params data) with
  | exn m => rfl
  | resp s body => by_cases h : errorStatus s <;> simp [h]

/-- `pyInt` only fails with `ValueError` or `TypeError`. -/
theorem pyInt_error_kind (id : PyVal) (e : PyError) (h : pyInt id = .error e) :
    (∃ m, e = .valueError m) ∨ (∃ m, e = .typeError m) := by
  cases id with
  | int n => simp [pyInt] at h
  | str s =>
    simp only [pyInt] at h
    cases hp : parsePyInt s with
    | some n => rw [hp] at h; simp at h
    | none => rw [hp] at h; simp at h; exact Or.inl ⟨_, h.symm⟩
  | noneV => simp only [pyInt] at h; exact Or.inr ⟨_, (Except.error.inj h).symm⟩

/-- C6: every call to `webhook_retrieve` first coerces the id with
`int(...)`: a non-coercible id re-raises the coercion's type/format error
with an empty request trace (no network call), and a coercible id issues a
GET to `subscriptions/{n}` with the coerced integer `n` interpolated. -/
theorem c6_webhook_retrieve_coercion (api : ZenviaAPI) (tr : Transport) (id : PyVal) :
    (∀ e, pyInt id = .error e →
      webhook_retrieve api tr id = (.error e, [])
        ∧ ((∃ m, e = .valueError m) ∨ (∃ m, e = .typeError m)))
    ∧ (∀ n, pyInt id = .ok n →
      (webhook_retrieve api tr id).2
        = [HttpRequest.get (urljoin API_HOST ("subscriptions/" ++ toString n))
            (get_auth_header api) []]) := by
  constructor
  · intro e he
    refine ⟨?_, pyInt_error_kind id e he⟩
    simp [webhook_retrieve, he]
  · intro n hn
    simp [webhook_retrieve, hn, request_get_trace]

/-- C6 witness: a concrete non-coercible id fails before any network call,
and a concrete coercible id issues the GET. -/
theorem c6_webhook_retrieve_coercion_witness :
    webhook_retrieve (ZenviaAPI.mk "tok") (fun _ => HttpOutcome.resp 200 Json.null)
        (PyVal.str "abc")
      = (.error (.valueError "invalid literal for int() with base 10: abc"), [])
    ∧ (webhook_retrieve (ZenviaAPI.mk "tok") (fun _ => HttpOutcome.resp 200 Json.null)
        (PyVal.str " 42 ")).2
      = [HttpRequest.get (urljoin API_HOST "subscriptions/42")
          (get_auth_header (ZenviaAPI.mk "tok")) []] := by
  constructor
  · exact ((c6_webhook_retrieve_coercion (ZenviaAPI.mk "tok")
      (fun _ => HttpOutcome.resp 200 Json.null) (PyVal.str "abc")).1
      (.valueError "invalid literal for int() with base 10: abc") (by rfl)).1
  · exact (c6_webhook_retrieve_coercion (ZenviaAPI.mk "tok")
      (fun _ => HttpOutcome.resp 200 Json.null) (PyVal.str " 42 ")).2 42 (by rfl)

/-- C9: `webhook_delete` performs the same `int(...)` coercion as
`webhook_retrieve`: a non-coercible id re-raises the coercion's type/format
error with no network call, and a coercible id issues a DELETE to
`subscriptions/{n}` with the coerced integer `n`. -/
theorem c9_webhook_delete_coercion (api : ZenviaAPI) (tr : Transport) (id : PyVal) :
    (∀ e, pyInt id = .error e →
      webhook_delete api tr id = (.error e, [])
        ∧ ((∃ m, e = .valueError m) ∨ (∃ m, e = .typeError m)))
    ∧ (∀ n, pyInt id = .ok n →
      (webhook_delete api tr id).2
        = [HttpRequest.delete (urljoin API_HOST ("subscriptions/" ++ toString n))
            (get_auth_header api) []]) := by
  constructor
  · intro e he
    refine ⟨?_, pyInt_error_kind id e he⟩
    simp [webhook_delete, he]
  · intro n hn
    simp [webhook_delete, hn, request_delete_trace]

/-- C9 witness: a concrete non-coercible id fails before any network call,
and a concrete coercible id issues the DELETE. -/
theorem c9_webhook_delete_coercion_witness :
    webhook_delete (ZenviaAPI.mk "tok") (fun _ => HttpOutcome.resp 200 Json.null)
        PyVal.noneV
      = (.error (.typeError
          "int() argument must be a string, a bytes-like object or a real number, not NoneType"), [])
    ∧ (webhook_delete (ZenviaAPI.mk "tok") (fun _ => HttpOutcome.resp 200 Json.null)
        (PyVal.int 12)).2
      = [HttpRequest.delete (urljoin API_HOST "subscriptions/12")
          (get_auth_header (ZenviaAPI.mk "tok")) []] := by
  constructor
  · exact ((c9_webhook_delete_coercion (ZenviaAPI.mk "tok")
      (fun _ => HttpOutcome.resp 200 Json.null) PyVal.noneV).1
      (.typeError
        "int() argument must be a string, a bytes-like object or a real number, not NoneType")
      rfl).1
  · exact (c9_webhook_delete_coercion (ZenviaAPI.mk "tok")
      (fun _ => HttpOutcome.resp 200 Json.null) (PyVal.int 12)).2 12 (by rfl)

/-- C7: `whatsapp_send_text` and `whatsapp_send_templated` always issue a
POST to `channels/whatsapp/messages` whose body carries the from and to
identifiers and a contents list of exactly one item of the respective shape;
no argument is validated locally (the trace is the singleton POST for all
inputs). -/
theorem c7_whatsapp_send_shapes (api : ZenviaAPI) (tr : Transport)
    (msg_from msg_to text template_id : String) (fields : Json) :
    (whatsapp_send_text api tr msg_from msg_to text).2
      = [HttpRequest.post (urljoin API_HOST "channels/whatsapp/messages")
          (get_auth_header api) []
          (Json.obj
            [("from", Json.str msg_from),
             ("to", Json.str msg_to),
             ("contents", Json.arr
               [Json.obj [("type", Json.str "text"), ("text", Json.str text)]])])]
    ∧ (whatsapp_send_templated api tr msg_from msg_to template_id fields).2
      = [HttpRequest.post (urljoin API_HOST "channels/whatsapp/messages")
          (get_auth_header api) []
          (Json.obj
            [("from", Json.str msg_from),
             ("to", Json.str msg_to),
             ("contents", Json.arr
               [Json.obj [("type", Json.str "template"),
                          ("templateId", Json.str template_id),
                          ("fields", fields)]])])] := by
  exact ⟨request_post_trace .., request_post_trace ..⟩

/-- Looking up a key in an appended parameter list falls through to the
right part when the left part does not bind the key. -/
theorem lookupParam_append_none (ps qs : List (String × String)) (key : String)
    (h : lookupParam ps key = Option.none) :
    lookupParam (ps ++ qs) key = lookupParam qs key := by
  induction ps with
  | nil => rfl
  | cons p ps ih =>
    obtain ⟨k, v⟩ := p
    simp only [lookupParam] at h
    simp only [List.cons_append, lookupParam]
    by_cases hk : (k == key) = true
    · rw [if_pos hk] at h; exact absurd h (by simp)
    · rw [if_neg hk] at h; rw [if_neg hk]; exact ih h

/-- Looking up a key in an appended parameter list finds the left binding. -/
theorem lookupParam_append_some (ps qs : List (String × String)) (key v : String)
    (h : lookupParam ps key = some v) :
    lookupParam (ps ++ qs) key = some v := by
  induction ps with
  | nil => simp [lookupParam] at h
  | cons p ps ih =>
    obtain ⟨k, w⟩ := p
    simp only [lookupParam] at h
    simp only [List.cons_append, lookupParam]
    by_cases hk : (k == key) = true
    · rw [if_pos hk] at h; rw [if_pos hk]; exact h
    · rw [if_neg hk] at h; rw [if_neg hk]; exact ih h

/-- The `channel` entry of the `template_list` query: present exactly when
the supplied channel is in the fixed enumeration. -/
theorem template_list_query_channel (channel sender_id status : Option String) :
    lookupParam (template_list_query channel sender_id status) "channel"
      = (match channel with
         | some c =>
           if c == "WHATSAPP" || c == "SMS" || c == "RCS" || c == "EMAIL" then
             some c
           else Option.none
         | Option.none => Option.none) := by
  cases channel with
  | none =>
    simp only [template_list_query]
    cases status with
    | none =>
      cases sender_id with
      | none => rfl
      | some sid => simp [lookupParam]
    | some st =>
      by_cases hst : st == "WAITING_REVIEW" || st == "REJECTED" || st == "WAITING_APPROVAL"
          || st == "APPROVED" || st == "PAUSED" || st == "DISABLED"
      · cases sender_id with
        | none => simp [hst, lookupParam]
        | some sid => simp [hst, lookupParam]
      · cases sender_id with
        | none => simp [hst, lookupParam]
        | some sid => simp [hst, lookupParam]
  | some c =>
    by_cases hc : c == "WHATSAPP" || c == "SMS" || c == "RCS" || c == "EMAIL"
    · simp only [template_list_query, hc, if_true]
      cases status with
      | none =>
        cases sender_id with
        | none => simp [lookupParam]
        | some sid => exact lookupParam_append_some _ _ _ _ (by simp [lookupParam])
      | some st =>
        by_cases hst : st == "WAITING_REVIEW" || st == "REJECTED" || st == "WAITING_APPROVAL"
            || st == "APPROVED" || st == "PAUSED" || st == "DISABLED"
        · cases sender_id with
          | none =>
            simp only [hst, if_true]
            exact lookupParam_append_some _ _ _ _ (by simp [lookupParam])
          | some sid =>
            simp only [hst, if_true]
            exact lookupParam_append_some _ _ _ _
              (lookupParam_append_some _ _ _ _ (by simp [lookupParam]))
        · cases sender_id with
          | none => simp [hst, lookupParam]
          | some sid =>
            simp only [hst, if_false]
            exact lookupParam_append_some _ _ _ _ (by simp [lookupParam])
    · simp only [template_list_query, hc, if_false]
      cases status with
      | none =>
        cases sender_id with
        | none => rfl
        | some sid => simp [lookupParam]
      | some st =>
        by_cases hst : st == "WAITING_REVIEW" || st == "REJECTED" || st == "WAITING_APPROVAL"
            || st == "APPROVED" || st == "PAUSED" || st == "DISABLED"
        · cases sender_id with
          | none => simp [hst, lookupParam]
          | some sid => simp [hst, lookupParam]
        · cases sender_id with
          | none => simp [hst, lookupParam]
          | some sid => simp [hst, lookupParam]

/-- The `status` entry of the `template_list` query: present exactly when
the supplied status is in the fixed enumeration. -/
theorem template_list_query_status (channel sender_id status : Option String) :
    lookupParam (template_list_query channel sender_id status) "status"
      = (match status with
         | some st =>
           if st == "WAITING_REVIEW" || st == "REJECTED" || st == "WAITING_APPROVAL"
               || st == "APPROVED" || st == "PAUSED" || st == "DISABLED" then
             some st
           else Option.none
         | Option.none => Option.none) := by
  rcases channel with _ | c <;> rcases status with _ | st <;> rcases sender_id with _ | sid <;>
    simp only [template_list_query] <;>
    (try by_cases hc : (c == "WHATSAPP" || c == "SMS" || c == "RCS" || c == "EMAIL") = true) <;>
    (try by_cases hst : (st == "WAITING_REVIEW" || st == "REJECTED" || st == "WAITING_APPROVAL"
        || st == "APPROVED" || st == "PAUSED" || st == "DISABLED") = true) <;>
    simp_all [lookupParam]

/-- The `senderId` entry of the `template_list` query: present exactly when a
sender id is supplied, unfiltered. -/
theorem template_list_query_senderId (channel sender_id status : Option String) :
    lookupParam (template_list_query channel sender_id status) "senderId"
      = sender_id := by
  rcases channel with _ | c <;> rcases status with _ | st <;> rcases sender_id with _ | sid <;>
    simp only [template_list_query] <;>
    (try by_cases hc : (c == "WHATSAPP" || c == "SMS" || c == "RCS" || c == "EMAIL") = true) <;>
    (try by_cases hst : (st == "WAITING_REVIEW" || st == "REJECTED" || st == "WAITING_APPROVAL"
        || st == "APPROVED" || st == "PAUSED" || st == "DISABLED") = true) <;>
    simp_all [lookupParam]

/-- C5: `template_list` issues a GET to `templates` whose query contains the
`channel` parameter iff the supplied channel is in the fixed channel
enumeration (silently dropped otherwise), contains the `status` parameter iff
the supplied status is in the fixed status enumeration (silently dropped
otherwise), and contains `senderId` exactly when a sender id is supplied,
unfiltered; in particular `channel="INVALID"` yields a query with no
`channel` parameter. -/
theorem c5_template_list_filtering (api : ZenviaAPI) (tr : Transport)
    (channel sender_id status : Option String) :
    (template_list api tr channel sender_id status).2
      = [HttpRequest.get (urljoin API_HOST "templates") (get_auth_header api)
          (template_list_query channel sender_id status)]
    ∧ (∀ c, channel = some c →
        ((c = "WHATSAPP" ∨ c = "SMS" ∨ c = "RCS" ∨ c = "EMAIL") →
          lookupParam (template_list_query channel sender_id status) "channel" = some c)
        ∧ (¬(c = "WHATSAPP" ∨ c = "SMS" ∨ c = "RCS" ∨ c = "EMAIL") →
          lookupParam (template_list_query channel sender_id status) "channel"
            = Option.none))
    ∧ (channel = Option.none →
        lookupParam (template_list_query channel sender_id status) "channel"
          = Option.none)
    ∧ (∀ st, status = some st →
        ((st = "WAITING_REVIEW" ∨ st = "REJECTED" ∨ st = "WAITING_APPROVAL"
            ∨ st = "APPROVED" ∨ st = "PAUSED" ∨ st = "DISABLED") →
          lookupParam (template_list_query channel sender_id status) "status" = some st)
        ∧ (¬(st = "WAITING_REVIEW" ∨ st = "REJECTED" ∨ st = "WAITING_APPROVAL"
            ∨ st = "APPROVED" ∨ st = "PAUSED" ∨ st = "DISABLED") →
          lookupParam (template_list_query channel sender_id status) "status"
            = Option.none))
    ∧ (status = Option.none →
        lookupParam (template_list_query channel sender_id status) "status"
          = Option.none)
    ∧ lookupParam (template_list_query channel sender_id status) "senderId" = sender_id
    ∧ lookupParam (template_list_query (some "INVALID") sender_id status) "channel"
        = Option.none := by
  refine ⟨?_, ?_, ?_, ?_, ?_, ?_, ?_⟩
  · simp [template_list, request_get_trace]
  · intro c hch
    subst hch
    constructor
    · intro hmem
      rw [template_list_query_channel]
      rcases hmem with h | h | h | h <;> subst h <;> rfl
    · intro hmem
      push_neg at hmem
      obtain ⟨h1, h2, h3, h4⟩ := hmem
      rw [template_list_query_channel]
      simp [beq_eq_false_iff_ne.mpr h1, beq_eq_false_iff_ne.mpr h2,
        beq_eq_false_iff_ne.mpr h3, beq_eq_false_iff_ne.mpr h4]
  · intro hch
    subst hch
    rw [template_list_query_channel]
  · intro st hst
    subst hst
    constructor
    · intro hmem
      rw [template_list_query_status]
      rcases hmem with h | h | h | h | h | h <;> subst h <;> rfl
    · intro hmem
      push_neg at hmem
      obtain ⟨h1, h2, h3, h4, h5, h6⟩ := hmem
      rw [template_list_query_status]
      simp [beq_eq_false_iff_ne.mpr h1, beq_eq_false_iff_ne.mpr h2,
        beq_eq_false_iff_ne.mpr h3, beq_eq_false_iff_ne.mpr h4,
        beq_eq_false_iff_ne.mpr h5, beq_eq_false_iff_ne.mpr h6]
  · intro hst
    subst hst
    rw [template_list_query_status]
  · exact template_list_query_senderId channel sender_id status
  · rw [template_list_query_channel]
    rfl

/-- C5 witness: with an invalid channel, a valid status and a sender id, the
query keeps `status` and `senderId` and silently drops `channel`. -/
theorem c5_template_list_filtering_witness :
    lookupParam (template_list_query (some "INVALID") (some "sid") (some "APPROVED"))
        "channel" = Option.none
    ∧ lookupParam (template_list_query (some "INVALID") (some "sid") (some "APPROVED"))
        "status" = some "APPROVED"
    ∧ lookupParam (template_list_query (some "INVALID") (some "sid") (some "APPROVED"))
        "senderId" = some "sid" := by
  have h := c5_template_list_filtering (ZenviaAPI.mk "tok")
    (fun _ => HttpOutcome.resp 200 Json.null) (some "INVALID") (some "sid") (some "APPROVED")
  refine ⟨(h.2.1 "INVALID" rfl).2 (by decide), (h.2.2.2.1 "APPROVED" rfl).1 (by decide),
    h.2.2.2.2.2.1⟩

/-- C1: `webhook_create` validates fail-fast in source order — (1) the event
type must be MESSAGE or MESSAGE_STATUS, (2) a non-null status must be in its
enumeration, (3) for MESSAGE the direction must be present (one message) and
in its enumeration (another message), (4) the webhook URL must be well
formed; the first violated check yields the corresponding
`ZenviaAPIFunctionValidation` error with an empty request trace, so no
network call is performed. -/
theorem c1_webhook_create_fail_fast (api : ZenviaAPI) (tr : Transport)
    (et url : String) (hdrs : Json) (ch : String) (dir : Option String)
    (st : Option String) :
    (¬(et = "MESSAGE" ∨ et = "MESSAGE_STATUS") →
      webhook_create api tr et url hdrs ch dir st
        = (.error (.functionValidation "event_type not in [MESSAGE, MESSAGE_STATUS]"), []))
    ∧ (∀ s, (et = "MESSAGE" ∨ et = "MESSAGE_STATUS") → st = some s →
        ¬(s = "ACTIVE" ∨ s = "DEGRADED" ∨ s = "INACTIVE") →
        webhook_create api tr et url hdrs ch dir st
          = (.error (.functionValidation "status not in [ACTIVE, DEGRADED, INACTIVE]"), []))
    ∧ (et = "MESSAGE" → statusCheckPasses st = true → dir = Option.none →
        webhook_create api tr et url hdrs ch dir st
          = (.error (.functionValidation "event_type == MESSAGE and criteria_direction is None"), []))
    ∧ (∀ d, et = "MESSAGE" → statusCheckPasses st = true → dir = some d →
        ¬(d = "IN" ∨ d = "OUT") →
        webhook_create api tr et url hdrs ch dir st
          = (.error (.functionValidation "criteria_direction not in [IN, OUT]"), []))
    ∧ ((et = "MESSAGE" ∨ et = "MESSAGE_STATUS") → statusCheckPasses st = true →
        directionCheckPasses et dir = true → validators_url url = false →
        webhook_create api tr et url hdrs ch dir st
          = (.error (.functionValidation "webhook_url is not a well formated url"), [])) := by
  refine ⟨?_, ?_, ?_, ?_, ?_⟩
  · intro h
    push_neg at h
    obtain ⟨h1, h2⟩ := h
    simp [webhook_create, beq_eq_false_iff_ne.mpr h1, beq_eq_false_iff_ne.mpr h2]
  · intro s hmem hst hs
    subst hst
    push_neg at hs
    obtain ⟨h1, h2, h3⟩ := hs
    have hsc : statusCheckPasses (some s) = false := by
      simp [statusCheckPasses, beq_eq_false_iff_ne.mpr h1, beq_eq_false_iff_ne.mpr h2,
        beq_eq_false_iff_ne.mpr h3]
    rcases hmem with h | h <;> subst h <;> simp [webhook_create, hsc]
  · intro het hsc hdir
    subst het
    subst hdir
    simp [webhook_create, hsc]
  · intro d het hsc hdir hd
    subst het
    subst hdir
    push_neg at hd
    obtain ⟨h1, h2⟩ := hd
    have hdvo : directionValueOk (some d) = false := by
      simp [directionValueOk, beq_eq_false_iff_ne.mpr h1, beq_eq_false_iff_ne.mpr h2]
    simp [webhook_create, hsc, hdvo]
  · intro hmem hsc hdirp hurl
    rcases hmem with h | h <;> subst h
    · simp [directionCheckPasses] at hdirp
      cases dir with
      | none => simp [directionValueOk] at hdirp
      | some d => simp [webhook_create, hsc, hdirp, hurl]
    · simp [webhook_create, hsc, hurl]

/-- C1 witness: a bad event type fails with the first message and no request;
for a valid MESSAGE_STATUS call with a malformed URL the URL check fires, again
with no request. -/
theorem c1_webhook_create_fail_fast_witness :
    webhook_create (ZenviaAPI.mk "tok") (fun _ => HttpOutcome.resp 200 Json.null)
        "BAD" "https://example.com/hook" Json.null "WHATSAPP" Option.none (some "ACTIVE")
      = (.error (.functionValidation "event_type not in [MESSAGE, MESSAGE_STATUS]"), [])
    ∧ webhook_create (ZenviaAPI.mk "tok") (fun _ => HttpOutcome.resp 200 Json.null)
        "MESSAGE_STATUS" "not a url" Json.null "WHATSAPP" Option.none (some "ACTIVE")
      = (.error (.functionValidation "webhook_url is not a well formated url"), []) := by
  constructor
  · exact (c1_webhook_create_fail_fast (ZenviaAPI.mk "tok")
      (fun _ => HttpOutcome.resp 200 Json.null) "BAD" "https://example.com/hook"
      Json.null "WHATSAPP" Option.none (some "ACTIVE")).1 (by decide)
  · exact (c1_webhook_create_fail_fast (ZenviaAPI.mk "tok")
      (fun _ => HttpOutcome.resp 200 Json.null) "MESSAGE_STATUS" "not a url"
      Json.null "WHATSAPP" Option.none (some "ACTIVE")).2.2.2.2
      (Or.inr rfl) (by decide) (by decide) (by decide)

/-- The first component of a POST is the decoded body or a
`ZenviaAPIRequestException`; it is never a `ZenviaAPIFunctionValidation`. -/
theorem request_post_no_validation_error (api : ZenviaAPI) (tr : Transport)
    (endpoint : String) (params : List (String × String)) (data : Json) (m : String) :
    (request_post api tr endpoint params data).1 ≠ .error (.functionValidation m) := by
  simp only [request_post]
  cases tr (HttpRequest.post (urljoin API_HOST endpoint) (get_auth_header api) params data) with
  | exn msg => simp
  | resp s body => by_cases h : errorStatus s <;> simp [h]

/-- C2: once validation passes, the payload of `webhook_create` depends on
the event type — for MESSAGE_STATUS the `criteria` mapping has no
`direction` key regardless of the direction passed, for MESSAGE it has
`direction` equal to the supplied value — and in both cases the payload's
`version` field is the literal string "v2"; the POST goes to
`subscriptions`. -/
theorem c2_webhook_create_payload (api : ZenviaAPI) (tr : Transport)
    (url : String) (hdrs : Json) (ch : String) (st : Option String)
    (hsc : statusCheckPasses st = true) (hurl : validators_url url = true) :
    (∀ dir, (webhook_create api tr "MESSAGE_STATUS" url hdrs ch dir st).2
        = [HttpRequest.post (urljoin API_HOST "subscriptions") (get_auth_header api) []
            (messageStatusPayload url hdrs ch st)]
      ∧ (messageStatusPayload url hdrs ch st).getKey "version" = some (Json.str "v2")
      ∧ ∃ c, (messageStatusPayload url hdrs ch st).getKey "criteria" = some c
          ∧ c.getKey "direction" = Option.none)
    ∧ (∀ d, (d = "IN" ∨ d = "OUT") →
        (webhook_create api tr "MESSAGE" url hdrs ch (some d) st).2
          = [HttpRequest.post (urljoin API_HOST "subscriptions") (get_auth_header api) []
              (messagePayload url hdrs ch (some d) st)]
        ∧ (messagePayload url hdrs ch (some d) st).getKey "version" = some (Json.str "v2")
        ∧ ∃ c, (messagePayload url hdrs ch (some d) st).getKey "criteria" = some c
            ∧ c.getKey "direction" = some (Json.str d)) := by
  constructor
  · intro dir
    refine ⟨?_, by rfl, ⟨_, by rfl, by rfl⟩⟩
    simp [webhook_create, hsc, hurl, build_webhook_payload, request_post_trace]
  · intro d hd
    have hdv : directionValueOk (some d) = true := by
      rcases hd with h | h <;> subst h <;> rfl
    refine ⟨?_, by rfl, ⟨_, by rfl, by rfl⟩⟩
    simp [webhook_create, hsc, hurl, hdv, build_webhook_payload, request_post_trace]

/-- C2 witness: a concrete validated MESSAGE call carries
`criteria.direction = "IN"` and `version = "v2"`; a concrete validated
MESSAGE_STATUS call has no `direction` key in `criteria`. -/
theorem c2_webhook_create_payload_witness :
    ((webhook_create (ZenviaAPI.mk "tok") (fun _ => HttpOutcome.resp 200 Json.null)
        "MESSAGE_STATUS" "https://example.com/hook" Json.null "WHATSAPP"
        (some "OUT") (some "ACTIVE")).2
      = [HttpRequest.post (urljoin API_HOST "subscriptions")
          (get_auth_header (ZenviaAPI.mk "tok")) []
          (messageStatusPayload "https://example.com/hook" Json.null "WHATSAPP"
            (some "ACTIVE"))]
      ∧ (messageStatusPayload "https://example.com/hook" Json.null "WHATSAPP"
          (some "ACTIVE")).getKey "version" = some (Json.str "v2")
      ∧ ∃ c, (messageStatusPayload "https://example.com/hook" Json.null "WHATSAPP"
          (some "ACTIVE")).getKey "criteria" = some c
          ∧ c.getKey "direction" = Option.none)
    ∧ ((webhook_create (ZenviaAPI.mk "tok") (fun _ => HttpOutcome.resp 200 Json.null)
        "MESSAGE" "https://example.com/hook" Json.null "WHATSAPP"
        (some "IN") (some "ACTIVE")).2
      = [HttpRequest.post (urljoin API_HOST "subscriptions")
          (get_auth_header (ZenviaAPI.mk "tok")) []
          (messagePayload "https://example.com/hook" Json.null "WHATSAPP"
            (some "IN") (some "ACTIVE"))]
      ∧ (messagePayload "https://example.com/hook" Json.null "WHATSAPP"
          (some "IN") (some "ACTIVE")).getKey "version" = some (Json.str "v2")
      ∧ ∃ c, (messagePayload "https://example.com/hook" Json.null "WHATSAPP"
          (some "IN") (some "ACTIVE")).getKey "criteria" = some c
          ∧ c.getKey "direction" = some (Json.str "IN")) := by
  have h := c2_webhook_create_payload (ZenviaAPI.mk "tok")
    (fun _ => HttpOutcome.resp 200 Json.null) "https://example.com/hook" Json.null
    "WHATSAPP" (some "ACTIVE") (by decide) (by decide)
  exact ⟨h.1 (some "OUT"), h.2 "IN" (Or.inl rfl)⟩

/-- C10: the final fallback branch of `webhook_create` ("event_type not
avaiable: ...") is dead code — whenever the event type has already passed
check (1), the payload construction takes one of the two payload branches,
and the call's result is never that fallback error. -/
theorem c10_fallback_unreachable (et url : String) (hdrs : Json) (ch : String)
    (dir : Option String) (st : Option String)
    (h : et = "MESSAGE" ∨ et = "MESSAGE_STATUS") :
    (∃ d, build_webhook_payload et url hdrs ch dir st = .ok d)
    ∧ ∀ api tr, (webhook_create api tr et url hdrs ch dir st).1
        ≠ .error (.functionValidation ("event_type not avaiable: " ++ et)) := by
  constructor
  · rcases h with h | h <;> subst h <;> exact ⟨_, rfl⟩
  · intro api tr
    rcases h with h | h <;> subst h
    · by_cases hsc : statusCheckPasses st = true
      · cases dir with
        | none => simp [webhook_create, hsc]
        | some d =>
          by_cases hdv : directionValueOk (some d) = true
          · by_cases hu : validators_url url = true
            · simp only [webhook_create, hsc, hdv, hu, build_webhook_payload]
              simp only [Bool.not_true, Bool.false_eq_true, if_false]
              simp
              exact fun hh =>
                request_post_no_validation_error api tr "subscriptions" []
                  (messagePayload url hdrs ch (some d) st) _ hh
            · rw [Bool.not_eq_true] at hu
              simp [webhook_create, hsc, hdv, hu]
          · rw [Bool.not_eq_true] at hdv
            simp [webhook_create, hsc, hdv]
      · rw [Bool.not_eq_true] at hsc
        simp [webhook_create, hsc]
    · by_cases hsc : statusCheckPasses st = true
      · by_cases hu : validators_url url = true
        · simp only [webhook_create, hsc, hu, build_webhook_payload]
          simp
          exact fun hh =>
            request_post_no_validation_error api tr "subscriptions" []
              (messageStatusPayload url hdrs ch st) _ hh
        · rw [Bool.not_eq_true] at hu
          simp [webhook_create, hsc, hu]
      · rw [Bool.not_eq_true] at hsc
        simp [webhook_create, hsc]

/-- C10 witness: for a concrete validated MESSAGE input the payload
construction succeeds, and the result of the call is not the fallback
error. -/
theorem c10_fallback_unreachable_witness :
    (∃ d, build_webhook_payload "MESSAGE" "https://example.com/hook" Json.null
      "WHATSAPP" (some "IN") (some "ACTIVE") = .ok d)
    ∧ (webhook_create (ZenviaAPI.mk "tok") (fun _ => HttpOutcome.resp 200 Json.null)
        "MESSAGE" "https://example.com/hook" Json.null "WHATSAPP" (some "IN")
        (some "ACTIVE")).1
      ≠ .error (.functionValidation ("event_type not avaiable: " ++ "MESSAGE")) := by
  have h := c10_fallback_unreachable "MESSAGE" "https://example.com/hook" Json.null
    "WHATSAPP" (some "IN") (some "ACTIVE") (Or.inl rfl)
  exact ⟨h.1, h.2 (ZenviaAPI.mk "tok") (fun _ => HttpOutcome.resp 200 Json.null)⟩

/-- C3 counterexample: the message raised for a POST with HTTP 422 and body
`message = "bad field"` starts with "Request reponse" (the source's
spelling), not the claimed exact form "Request response"; moreover a POST
response with status 304 — not a 2xx status — raises nothing and returns the
body, because `response.ok` only fails for statuses 400..599. -/
theorem c3_counterexample :
    (request_post (ZenviaAPI.mk "tok")
        (fun _ => HttpOutcome.resp 422 (Json.obj [("message", Json.str "bad field")]))
        "subscriptions" [] Json.null).1
      = .error (.requestException
          "Request reponse with error status[422]:\n\x7b\n  \"message\": \"bad field\"\n\x7d")
    ∧ ("Request reponse with error status[422]:\n\x7b\n  \"message\": \"bad field\"\n\x7d"
        : String)
      ≠ "Request response with error status[422]:\n\x7b\n  \"message\": \"bad field\"\n\x7d"
    ∧ (request_post (ZenviaAPI.mk "tok")
        (fun _ => HttpOutcome.resp 304 (Json.str "cached"))
        "subscriptions" [] Json.null).1
      = .ok (Json.str "cached") := by
  exact ⟨by rfl, by decide, by rfl⟩

/-- C3 amended: for every POST whose response has a status in 400..599 (the
statuses for which `requests.Response.ok` is false; other non-2xx statuses
such as 304 pass through), the transport call itself does not raise — the
failure is detected by the explicit success check afterwards and raises
`ZenviaAPIRequestException` with a message of the exact form
"Request reponse with error status[code]:" (sic) followed by a newline and
the 2-space-indent pretty-printed JSON body; in particular a POST returning
HTTP 422 with body `message = "bad field"` raises a failure whose message
contains both 422 and "bad field". -/
theorem c3_post_error_message (api : ZenviaAPI) (tr : Transport)
    (endpoint : String) (params : List (String × String)) (data : Json)
    (s : Nat) (body : Json)
    (hresp : tr (HttpRequest.post (urljoin API_HOST endpoint) (get_auth_header api)
        params data) = HttpOutcome.resp s body)
    (h4 : 400 ≤ s) (h6 : s < 600) :
    request_post api tr endpoint params data
      = (.error (.requestException
          ("Request reponse with error status[" ++ toString s ++ "]:\n"
            ++ dumpsVal 0 body)),
         [HttpRequest.post (urljoin API_HOST endpoint) (get_auth_header api) params data])
    ∧ ∃ m, (request_post (ZenviaAPI.mk "tok")
          (fun _ => HttpOutcome.resp 422 (Json.obj [("message", Json.str "bad field")]))
          "subscriptions" [] Json.null).1 = .error (.requestException m)
        ∧ (∃ a b, m = a ++ "422" ++ b) ∧ (∃ a b, m = a ++ "bad field" ++ b) := by
  constructor
  · have herr : errorStatus s = true := decide_eq_true ⟨h4, h6⟩
    simp only [request_post, hresp, herr, if_true]
  · refine ⟨"Request reponse with error status[422]:\n\x7b\n  \"message\": \"bad field\"\n\x7d",
      by rfl, ⟨"Request reponse with error status[",
        "]:\n\x7b\n  \"message\": \"bad field\"\n\x7d", by decide⟩,
      ⟨"Request reponse with error status[422]:\n\x7b\n  \"message\": \"",
        "\"\n\x7d", by decide⟩⟩

/-- C3 witness: the theorem applied to a concrete transport answering 422
with the `bad field` body. -/
theorem c3_post_error_message_witness :
    request_post (ZenviaAPI.mk "tok")
        (fun _ => HttpOutcome.resp 422 (Json.obj [("message", Json.str "bad field")]))
        "subscriptions" [] Json.null
      = (.error (.requestException
          ("Request reponse with error status[" ++ toString (422 : Nat) ++ "]:\n"
            ++ dumpsVal 0 (Json.obj [("message", Json.str "bad field")]))),
         [HttpRequest.post (urljoin API_HOST "subscriptions")
           (get_auth_header (ZenviaAPI.mk "tok")) [] Json.null]) := by
  exact (c3_post_error_message (ZenviaAPI.mk "tok")
    (fun _ => HttpOutcome.resp 422 (Json.obj [("message", Json.str "bad field")]))
    "subscriptions" [] Json.null 422 (Json.obj [("message", Json.str "bad field")])
    rfl (by decide) (by decide)).1

/-- C4 counterexample: a GET whose response has status 304 — a non-2xx
status — is not re-raised as `ZenviaAPIRequestException`: the decoded body is
returned, because `raise_for_status` only raises for statuses 400..599. -/
theorem c4_counterexample :
    request_get (ZenviaAPI.mk "tok") (fun _ => HttpOutcome.resp 304 (Json.str "cached"))
        "subscriptions" []
      = (.ok (Json.str "cached"),
         [HttpRequest.get (urljoin API_HOST "subscriptions")
           (get_auth_header (ZenviaAPI.mk "tok")) []]) := by
  rfl

/-- C4 amended: for every GET and DELETE, a transport exception is re-raised
as `ZenviaAPIRequestException` carrying the original message, a response
status in 400..599 (those `raise_for_status` raises for; other non-2xx
statuses such as 304 pass through) is re-raised as
`ZenviaAPIRequestException` carrying the `raise_for_status` message, any
other response returns the decoded JSON body, and every error the caller can
observe is a `ZenviaAPIRequestException` — never the transport's native
exception kind. -/
theorem c4_get_delete_error_wrapping (api : ZenviaAPI) (tr : Transport)
    (endpoint : String) (params : List (String × String)) :
    (∀ m, tr (HttpRequest.get (urljoin API_HOST endpoint) (get_auth_header api) params)
        = HttpOutcome.exn m →
      request_get api tr endpoint params
        = (.error (.requestException m),
           [HttpRequest.get (urljoin API_HOST endpoint) (get_auth_header api) params]))
    ∧ (∀ s body, tr (HttpRequest.get (urljoin API_HOST endpoint) (get_auth_header api)
          params) = HttpOutcome.resp s body → 400 ≤ s → s < 600 →
        request_get api tr endpoint params
          = (.error (.requestException (raiseForStatusMsg s (urljoin API_HOST endpoint))),
             [HttpRequest.get (urljoin API_HOST endpoint) (get_auth_header api) params]))
    ∧ (∀ s body, tr (HttpRequest.get (urljoin API_HOST endpoint) (get_auth_header api)
          params) = HttpOutcome.resp s body → ¬(400 ≤ s ∧ s < 600) →
        request_get api tr endpoint params
          = (.ok body,
             [HttpRequest.get (urljoin API_HOST endpoint) (get_auth_header api) params]))
    ∧ (∀ e, (request_get api tr endpoint params).1 = .error e →
        ∃ m, e = .requestException m)
    ∧ (∀ m, tr (HttpRequest.delete (urljoin API_HOST endpoint) (get_auth_header api)
          params) = HttpOutcome.exn m →
      request_delete api tr endpoint params
        = (.error (.requestException m),
           [HttpRequest.delete (urljoin API_HOST endpoint) (get_auth_header api) params]))
    ∧ (∀ s body, tr (HttpRequest.delete (urljoin API_HOST endpoint) (get_auth_header api)
          params) = HttpOutcome.resp s body → 400 ≤ s → s < 600 →
        request_delete api tr endpoint params
          = (.error (.requestException (raiseForStatusMsg s (urljoin API_HOST endpoint))),
             [HttpRequest.delete (urljoin API_HOST endpoint) (get_auth_header api) params]))
    ∧ (∀ s body, tr (HttpRequest.delete (urljoin API_HOST endpoint) (get_auth_header api)
          params) = HttpOutcome.resp s body → ¬(400 ≤ s ∧ s < 600) →
        request_delete api tr endpoint params
          = (.ok body,
             [HttpRequest.delete (urljoin API_HOST endpoint) (get_auth_header api) params]))
    ∧ (∀ e, (request_delete api tr endpoint params).1 = .error e →
        ∃ m, e = .requestException m) := by
  refine ⟨?_, ?_, ?_, ?_, ?_, ?_, ?_, ?_⟩
  · intro m hm
    simp only [request_get, hm]
  · intro s body hresp h4 h6
    have herr : errorStatus s = true := decide_eq_true ⟨h4, h6⟩
    simp only [request_get, hresp, herr, if_true]
  · intro s body hresp hno
    have herr : errorStatus s = false := decide_eq_false hno
    simp only [request_get, hresp, herr, Bool.false_eq_true, if_false]
  · intro e he
    simp only [request_get] at he
    rcases htr : tr (HttpRequest.get (urljoin API_HOST endpoint) (get_auth_header api) params)
      with m | ⟨s, body⟩
    · rw [htr] at he; simp at he; exact ⟨m, he.symm⟩
    · rw [htr] at he
      by_cases h : errorStatus s = true
      · simp [h] at he; exact ⟨_, he.symm⟩
      · rw [Bool.not_eq_true] at h; simp [h] at he
  · intro m hm
    simp only [request_delete, hm]
  · intro s body hresp h4 h6
    have herr : errorStatus s = true := decide_eq_true ⟨h4, h6⟩
    simp only [request_delete, hresp, herr, if_true]
  · intro s body hresp hno
    have herr : errorStatus s = false := decide_eq_false hno
    simp only [request_delete, hresp, herr, Bool.false_eq_true, if_false]
  · intro e he
    simp only [request_delete] at he
    rcases htr : tr (HttpRequest.delete (urljoin API_HOST endpoint) (get_auth_header api) params)
      with m | ⟨s, body⟩
    · rw [htr] at he; simp at he; exact ⟨m, he.symm⟩
    · rw [htr] at he
      by_cases h : errorStatus s = true
      · simp [h] at he; exact ⟨_, he.symm⟩
      · rw [Bool.not_eq_true] at h; simp [h] at he

/-- C4 witness: a connection-level error on a GET surfaces as
`ZenviaAPIRequestException` with the original message, and a DELETE with a
404 response is wrapped with the `raise_for_status` message. -/
theorem c4_get_delete_error_wrapping_witness :
    request_get (ZenviaAPI.mk "tok") (fun _ => HttpOutcome.exn "Connection refused")
        "subscriptions" []
      = (.error (.requestException "Connection refused"),
         [HttpRequest.get (urljoin API_HOST "subscriptions")
           (get_auth_header (ZenviaAPI.mk "tok")) []])
    ∧ request_delete (ZenviaAPI.mk "tok") (fun _ => HttpOutcome.resp 404 Json.null)
        "subscriptions/3" []
      = (.error (.requestException
          (raiseForStatusMsg 404 (urljoin API_HOST "subscriptions/3"))),
         [HttpRequest.delete (urljoin API_HOST "subscriptions/3")
           (get_auth_header (ZenviaAPI.mk "tok")) []]) := by
  constructor
  · exact (c4_get_delete_error_wrapping (ZenviaAPI.mk "tok")
      (fun _ => HttpOutcome.exn "Connection refused") "subscriptions" []).1
      "Connection refused" rfl
  · exact (c4_get_delete_error_wrapping (ZenviaAPI.mk "tok")
      (fun _ => HttpOutcome.resp 404 Json.null) "subscriptions/3" []).2.2.2.2.2.1
      404 Json.null rfl (by decide) (by decide)

/-- Every request traced by `request_get` carries the auth header. -/
theorem headers_of_request_get (api : ZenviaAPI) (tr : Transport)
    (endpoint : String) (params : List (String × String)) :
    ∀ r ∈ (request_get api tr endpoint params).2, r.headersOf = get_auth_header api := by
  rw [request_get_trace]
  intro r hr
  rw [List.mem_singleton] at hr
  subst hr
  rfl

/-- Every request traced by `request_delete` carries the auth header. -/
theorem headers_of_request_delete (api : ZenviaAPI) (tr : Transport)
    (endpoint : String) (params : List (String × String)) :
    ∀ r ∈ (request_delete api tr endpoint params).2, r.headersOf = get_auth_header api := by
  rw [request_delete_trace]
  intro r hr
  rw [List.mem_singleton] at hr
  subst hr
  rfl

/-- Every request traced by `request_post` carries the auth header. -/
theorem headers_of_request_post (api : ZenviaAPI) (tr : Transport)
    (endpoint : String) (params : List (String × String)) (data : Json) :
    ∀ r ∈ (request_post api tr endpoint params data).2, r.headersOf = get_auth_header api := by
  rw [request_post_trace]
  intro r hr
  rw [List.mem_singleton] at hr
  subst hr
  rfl

/-- C8: constructing the client stores the token unchanged without
validating it (construction is a pure record build, so there is no I/O and
the stored token is immutable — every operation is a pure function that
leaves the client value untouched), and every HTTP request issued by any
client operation carries exactly the header `X-API-Token` equal to the
stored token. -/
theorem c8_token_and_auth_header (token : String) (api : ZenviaAPI) (tr : Transport) :
    (ZenviaAPI.mk token).token = token
    ∧ get_auth_header api = [("X-API-Token", api.token)]
    ∧ (∀ r ∈ (webhook_list api tr).2, r.headersOf = [("X-API-Token", api.token)])
    ∧ (∀ id, ∀ r ∈ (webhook_retrieve api tr id).2,
        r.headersOf = [("X-API-Token", api.token)])
    ∧ (∀ id, ∀ r ∈ (webhook_delete api tr id).2,
        r.headersOf = [("X-API-Token", api.token)])
    ∧ (∀ et url hdrs ch dir st, ∀ r ∈ (webhook_create api tr et url hdrs ch dir st).2,
        r.headersOf = [("X-API-Token", api.token)])
    ∧ (∀ f t x, ∀ r ∈ (whatsapp_send_text api tr f t x).2,
        r.headersOf = [("X-API-Token", api.token)])
    ∧ (∀ f t tid fl, ∀ r ∈ (whatsapp_send_templated api tr f t tid fl).2,
        r.headersOf = [("X-API-Token", api.token)])
    ∧ (∀ c sid st, ∀ r ∈ (template_list api tr c sid st).2,
        r.headersOf = [("X-API-Token", api.token)])
    ∧ (∀ i, ∀ r ∈ (template_retrieve api tr i).2,
        r.headersOf = [("X-API-Token", api.token)]) := by
  refine ⟨rfl, rfl, ?_, ?_, ?_, ?_, ?_, ?_, ?_, ?_⟩
  · exact headers_of_request_get api tr "subscriptions" []
  · intro id r hr
    rcases hp : pyInt id with e | n
    · simp only [webhook_retrieve, hp] at hr
      simp at hr
    · simp only [webhook_retrieve, hp] at hr
      exact headers_of_request_get api tr _ [] r hr
  · intro id r hr
    rcases hp : pyInt id with e | n
    · simp only [webhook_delete, hp] at hr
      simp at hr
    · simp only [webhook_delete, hp] at hr
      exact headers_of_request_delete api tr _ [] r hr
  · intro et url hdrs ch dir st r hr
    simp only [webhook_create] at hr
    split at hr
    · simp at hr
    · split at hr
      · simp at hr
      · split at hr
        · simp at hr
        · split at hr
          · simp at hr
          · split at hr
            · simp at hr
            · split at hr
              · simp at hr
              · exact headers_of_request_post api tr "subscriptions" [] _ r hr
  · intro f t x r hr
    exact headers_of_request_post api tr "channels/whatsapp/messages" [] _ r hr
  · intro f t tid fl r hr
    exact headers_of_request_post api tr "channels/whatsapp/messages" [] _ r hr
  · intro c sid st r hr
    exact headers_of_request_get api tr "templates" _ r hr
  · intro i r hr
    exact headers_of_request_get api tr _ [] r hr

/-- C8 witness: the request issued by a concrete `webhook_list` call on a
client built from a concrete token carries exactly the `X-API-Token`
header. -/
theorem c8_token_and_auth_header_witness :
    (HttpRequest.get (urljoin API_HOST "subscriptions")
        (get_auth_header (ZenviaAPI.mk "tok")) []).headersOf
      = [("X-API-Token", "tok")] := by
  exact (c8_token_and_auth_header "tok" (ZenviaAPI.mk "tok")
      (fun _ => HttpOutcome.resp 200 Json.null)).2.2.1
    (HttpRequest.get (urljoin API_HOST "subscriptions")
      (get_auth_header (ZenviaAPI.mk "tok")) [])
    (by rw [webhook_list, request_get_trace]; exact List.mem_singleton.mpr rfl)

end ZenviaV2
